import Mathlib

/-!
Shallow embedding of the Tagum tricycle fare prediction service.

The repository serves fare predictions through two Flask handlers:

* the backend variant, `predict` in `src/backend/app.py` (route `POST /predict`),
  with a loaded pipeline of model, preprocessor and scaler, ₱-prefixed fuel-price
  labels, and a 100 km distance ceiling;
* the api variant, `predict` in `src/api/predict.py` (route `POST /api/predict`),
  with a single loaded model, plain fuel-price labels, inline ordinal encoding
  (`prepare_input_dataframe`) and a 1000 km distance ceiling.

JSON request bodies are embedded as association lists of string keys and
`JValue`s; Python's `float()` builtin (as used by `validate_input_data` on the
`Distance_km` field) is embedded by `pyFloat`, covering JSON numbers, booleans
and plain decimal string literals, the forms validation is exercised on
(exponent notation and the `inf`/`nan` spellings are not modelled; no claim
depends on them).  The loaded pickle artifacts (model, preprocessor, scaler) are
opaque to the source, so they are embedded as abstract total functions; `none`
for a component means the corresponding `joblib.load` failed at startup.
Machine floats are embedded as exact rationals.
-/

/-- A JSON value as delivered by `request.get_json()`: a number, a string, a
boolean, `null`, or any other JSON composite (array/object), which no code path
of the service inspects beyond identity. -/
inductive JValue where
  | jnum (q : ℚ)
  | jstr (s : String)
  | jbool (b : Bool)
  | jnull
  | jother
deriving DecidableEq, Repr

/-- A request body: the parsed JSON object, keys to values. -/
def Req : Type := List (String × JValue)

instance : DecidableEq Req := by
  unfold Req
  infer_instance

/-- Association-list lookup by string key (Python dict access). -/
def alookup {β : Type} (f : String) : List (String × β) → Option β
  | [] => none
  | kv :: rest => if kv.1 = f then some kv.2 else alookup f rest

/-- Key lookup in a request body (Python `data[field]`; total here, with
`jnull` standing for the unreachable missing case, which every caller has
already excluded via `field in data`). -/
def lookupField (data : Req) (f : String) : JValue :=
  (alookup f data).getD JValue.jnull

/-- Whether `field in data` holds for the Python dict. -/
def hasField (data : Req) (f : String) : Bool :=
  (alookup f data).isSome

/-- Digits of a decimal literal to the natural number they denote. -/
def digitsToNat (l : List Char) : Nat :=
  l.foldl (fun n c => n * 10 + (c.toNat - 48)) 0

/-- Python `float()` on a plain decimal string literal: optional sign, integer
digits, optional fraction digits around a single dot; `none` when `float()`
raises `ValueError`. -/
def parseDecimal (s : String) : Option ℚ :=
  let cs := s.toList
  let signed : ℚ × List Char :=
    match cs with
    | '-' :: rest => (-1, rest)
    | '+' :: rest => (1, rest)
    | _ => (1, cs)
  let sign := signed.1
  let body := signed.2
  let intPart := body.takeWhile Char.isDigit
  let rest := body.dropWhile Char.isDigit
  match rest with
  | [] =>
    if intPart.isEmpty then none
    else some (sign * (digitsToNat intPart : ℚ))
  | '.' :: frac =>
    if frac.all Char.isDigit && !(intPart.isEmpty && frac.isEmpty) then
      some (sign * ((digitsToNat intPart : ℚ) +
        (digitsToNat frac : ℚ) / (10 : ℚ) ^ frac.length))
    else none
  | _ => none

/-- Python `float(v)` on a JSON value: numbers pass through, booleans convert
as `1.0`/`0.0` (`bool` is an `int` subclass), decimal strings parse, and every
other value raises `ValueError`/`TypeError`, caught by the validator. -/
def pyFloat : JValue → Option ℚ
  | JValue.jnum q => some q
  | JValue.jbool b => some (if b then 1 else 0)
  | JValue.jstr s => parseDecimal s
  | JValue.jnull => none
  | JValue.jother => none

/-- The five request fields, in the order both validators check them
(`required_fields` in `src/api/predict.py`, `EXPECTED_COLUMNS` in
`src/backend/app.py`). -/
def requiredFields : List String :=
  ["Distance_km", "Fuel_Price", "Time_of_Day", "Weather", "Vehicle_Type"]

def distField : String := "Distance_km"
def fuelField : String := "Fuel_Price"
def timeField : String := "Time_of_Day"
def weatherField : String := "Weather"
def vehicleField : String := "Vehicle_Type"

/-- `VALID_VALUES['Fuel_Price']` of the api variant (`src/api/predict.py`). -/
def apiFuelPrices : List String :=
  ["20-29", "30-39", "40-49", "50-59", "60-69", "70-79", "80-89", "90-99", "100&up"]

/-- `VALID_VALUES['Fuel_Price']` of the backend variant (`src/backend/app.py`),
₱-prefixed. -/
def backendFuelPrices : List String :=
  ["₱20-29", "₱30-39", "₱40-49", "₱50-59", "₱60-69", "₱70-79", "₱80-89", "₱90-99", "₱100 & up"]

/-- `VALID_VALUES['Time_of_Day']`, identical in both variants. -/
def timesOfDay : List String :=
  ["Rush Hour Morning", "Off-Peak", "Rush Hour Evening"]

/-- `VALID_VALUES['Weather']`, identical in both variants. -/
def weatherKinds : List String := ["Sunny", "Rainy"]

/-- `VALID_VALUES['Vehicle_Type']`, identical in both variants. -/
def vehicleTypes : List String := ["Single Motor", "Tricycle"]

/-- The two serving variants differ only in their `VALID_VALUES` table, their
distance ceiling, and the ceiling's error message; this structure carries those
three parameters. -/
structure Variant where
  validValues : List (String × List String)
  distCeiling : ℚ
  ceilingMsg : String
deriving DecidableEq

def apiCeilingMsg : String := "Distance seems unrealistic (> 1000 km)"
def backendCeilingMsg : String := "Distance seems unrealistic (> 100 km for Tagum City)"

/-- The api variant: `VALID_VALUES` and the 1000 km ceiling of
`src/api/predict.py`. -/
def apiVariant : Variant :=
  ⟨[(fuelField, apiFuelPrices), (timeField, timesOfDay),
    (weatherField, weatherKinds), (vehicleField, vehicleTypes)],
   1000, apiCeilingMsg⟩

/-- The backend variant: `VALID_VALUES` and the 100 km ceiling of
`src/backend/app.py`. -/
def backendVariant : Variant :=
  ⟨[(fuelField, backendFuelPrices), (timeField, timesOfDay),
    (weatherField, weatherKinds), (vehicleField, vehicleTypes)],
   100, backendCeilingMsg⟩

def missingFieldMsg (f : String) : String :=
  let head : String := "Missing required field: "
  head ++ f

def distanceNotPositiveMsg : String := "Distance must be greater than 0"
def distanceNotNumberMsg : String := "Distance_km must be a valid number"

/-- Display of a JSON value inside an error message (Python string
interpolation; only string-valued fields reach the interpolation in any
concrete input considered here). -/
def jvalDisplay : JValue → String
  | JValue.jstr s => s
  | JValue.jnum q => toString q
  | JValue.jbool b => if b then "True" else "False"
  | JValue.jnull => "None"
  | JValue.jother => "object"

/-- `f"Invalid {field}: '{data[field]}'. Must be one of: {', '.join(valid_values)}"`. -/
def invalidCategoryMsg (f : String) (v : JValue) (vals : List String) : String :=
  let a : String := "Invalid "
  let b : String := ": '"
  let c : String := "'. Must be one of: "
  let sep : String := ", "
  a ++ f ++ b ++ jvalDisplay v ++ c ++ String.intercalate sep vals

/-- Python `data[field] in valid_values` for a list of string labels: only a
JSON string equal to one of the labels is a member. -/
def jvalMemStr (v : JValue) (vals : List String) : Bool :=
  match v with
  | JValue.jstr s => decide (s ∈ vals)
  | _ => false

/-- The `for field, valid_values in VALID_VALUES.items()` loop: the first
categorical entry whose request value is outside its enumeration, with that
value and the enumeration. -/
def firstInvalidCategory (data : Req) : List (String × List String) → Option (String × JValue × List String)
  | [] => none
  | fv :: rest =>
    if jvalMemStr (lookupField data fv.1) fv.2 then firstInvalidCategory data rest
    else some (fv.1, lookupField data fv.1, fv.2)

/-- `validate_input_data` (`src/api/predict.py` lines 31-52 and
`src/backend/app.py` lines 106-138; the two bodies are identical up to the
`Variant` parameters): returns the `(is_valid, error_message)` pair. -/
def validate_input_data (v : Variant) (data : Req) : Bool × Option String :=
  match requiredFields.find? (fun f => !hasField data f) with
  | some f => (false, some (missingFieldMsg f))
  | none =>
    match pyFloat (lookupField data distField) with
    | none => (false, some distanceNotNumberMsg)
    | some d =>
      if d ≤ 0 then (false, some distanceNotPositiveMsg)
      else if v.distCeiling < d then (false, some v.ceilingMsg)
      else
        match firstInvalidCategory data v.validValues with
        | some fvv => (false, some (invalidCategoryMsg fvv.1 fvv.2.1 fvv.2.2))
        | none => (true, none)

/-- Encoding table for `Fuel_Price` (`encodings` in `prepare_input_dataframe`,
`src/api/predict.py`). -/
def fuelEncoding : List (String × ℚ) :=
  [("100&up", 0), ("20-29", 1), ("30-39", 2), ("40-49", 3), ("50-59", 4),
   ("60-69", 5), ("70-79", 6), ("80-89", 7), ("90-99", 8)]

/-- Encoding table for `Time_of_Day`. -/
def timeEncoding : List (String × ℚ) :=
  [("Off-Peak", 0), ("Rush Hour Evening", 1), ("Rush Hour Morning", 2)]

/-- Encoding table for `Weather`. -/
def weatherEncoding : List (String × ℚ) :=
  [("Rainy", 0), ("Sunny", 1)]

/-- Encoding table for `Vehicle_Type`. -/
def vehicleEncoding : List (String × ℚ) :=
  [("Single Motor", 0), ("Tricycle", 1)]

/-- `df[col].map(encodings[col])` on the single row: a string key found in the
table maps to its code; any other value becomes a NaN cell, embedded as
`none`. -/
def encodeWith (table : List (String × ℚ)) (v : JValue) : Option ℚ :=
  match v with
  | JValue.jstr s => alookup s table
  | _ => none

/-- `prepare_input_dataframe` (`src/api/predict.py` lines 54-76): the single
row of the resulting dataframe, columns in the order
`['Distance_km', 'Fuel_Price_encoded', 'Time_of_Day_encoded',
'Weather_encoded', 'Vehicle_Type_encoded']`.  `none` covers the paths that do
not yield a clean numeric row — `astype(float)` raising on a non-numeric
`Distance_km`, or a NaN cell from an unmapped category — neither of which is
reachable from validated input. -/
def prepare_input_dataframe (data : Req) : Option (List ℚ) := do
  let d ← pyFloat (lookupField data distField)
  let fp ← encodeWith fuelEncoding (lookupField data fuelField)
  let td ← encodeWith timeEncoding (lookupField data timeField)
  let w ← encodeWith weatherEncoding (lookupField data weatherField)
  let vt ← encodeWith vehicleEncoding (lookupField data vehicleField)
  some [d, fp, td, w, vt]

/-- Python `round(x, 2)` on the exact value: round half to even at the second
decimal. -/
def round2 (x : ℚ) : ℚ :=
  if 100 * x - ⌊100 * x⌋ < 1 / 2 then (⌊100 * x⌋ : ℚ) / 100
  else if 1 / 2 < 100 * x - ⌊100 * x⌋ then ((⌊100 * x⌋ : ℚ) + 1) / 100
  else if ⌊100 * x⌋ % 2 = 0 then (⌊100 * x⌋ : ℚ) / 100
  else ((⌊100 * x⌋ : ℚ) + 1) / 100

/-- The fare is an exact multiple of a hundredth, i.e. "rounded to 2 decimal
places". -/
def twoDecimals (q : ℚ) : Prop := ∃ n : ℤ, q = (n : ℚ) / 100

/-- The JSON bodies the two handlers can produce, one optional field per JSON
key that any branch emits.  Fields in order: HTTP status, `error`, `details`,
`predicted_fare`, `input` echo, `valid_fuel_prices`. -/
structure HttpResponse where
  status : Nat
  error : Option String
  details : Option String
  predicted_fare : Option ℚ
  input_echo : Option Req
  valid_fuel_prices : Option (List String)
deriving DecidableEq

/-- A bare `{'error': msg}` response with the given status. -/
def errResponse (st : Nat) (msg : String) : HttpResponse :=
  ⟨st, some msg, none, none, none, none⟩

def modelUnavailableMsg : String := "Model not available"
def pipelineUnavailableMsg : String := "Model pipeline not available. Please contact administrator."
def notJsonMsg : String := "Request must be JSON"
def internalErrorMsg : String := "Internal server error during prediction"

/-- The loaded backend artifacts (`src/backend/app.py` globals `model`,
`preprocessor`, `scaler`), each `none` when its `joblib.load` failed.  The
pickles are opaque to the source, so each is an abstract total function: the
preprocessor transforms the raw request row, the scaler and model work on
numeric rows. -/
structure BackendPipeline where
  model : Option (List ℚ → ℚ)
  preprocessor : Option (Req → List ℚ)
  scaler : Option (List ℚ → List ℚ)

/-- `prepare_and_predict` (`src/backend/app.py` lines 141-171) on loaded
components: preprocessor, then scaler, then the model's prediction on the
single row. -/
def prepare_and_predict (m : List ℚ → ℚ) (p : Req → List ℚ) (s : List ℚ → List ℚ)
    (data : Req) : ℚ :=
  m (s (p data))

/-- The `predict` handler of `src/api/predict.py` (route `POST /api/predict`).
Besides the response, it returns whether the encoding/prediction stage
(`prepare_input_dataframe` and `model.predict`) was entered. -/
def api_predict (model : Option (List ℚ → ℚ)) (isJson : Bool) (data : Req) :
    HttpResponse × Bool :=
  match model with
  | none => (errResponse 500 modelUnavailableMsg, false)
  | some m =>
    if isJson = false then (errResponse 400 notJsonMsg, false)
    else
      let vr := validate_input_data apiVariant data
      if vr.1 = true then
        match prepare_input_dataframe data with
        | some vec =>
          (⟨200, none, none, some (round2 (m vec)), some data, none⟩, true)
        | none => (⟨500, some internalErrorMsg, some internalErrorMsg, none, none, none⟩, true)
      else (⟨400, vr.2, none, none, none, none⟩, false)

/-- The `predict` handler of `src/backend/app.py` (route `POST /predict`).
Besides the response, it returns whether the encoding/prediction stage
(`prepare_and_predict`) was entered.  The 200 path rounds to 2 decimals and
then clamps at 0; every validation failure carries `valid_fuel_prices`. -/
def backend_predict (pipe : BackendPipeline) (isJson : Bool) (data : Req) :
    HttpResponse × Bool :=
  match pipe.model, pipe.preprocessor, pipe.scaler with
  | some m, some p, some s =>
    if isJson = false then (errResponse 400 notJsonMsg, false)
    else
      let vr := validate_input_data backendVariant data
      if vr.1 = true then
        let fare := max 0 (round2 (prepare_and_predict m p s data))
        (⟨200, none, none, some fare, some data, none⟩, true)
      else (⟨400, vr.2, none, none, none, some backendFuelPrices⟩, false)
  | _, _, _ => (errResponse 500 pipelineUnavailableMsg, false)

/-! Concrete inputs used by witnesses and counterexamples. -/

def fuel6069 : String := "60-69"
def pesoFuel6069 : String := "₱60-69"
def morningStr : String := "Rush Hour Morning"
def sunnyStr : String := "Sunny"
def tricycleStr : String := "Tricycle"
def invalidPriceStr : String := "invalid-price"
def strFiveFive : String := "5.5"

/-- The spec's round-trip scenario payload
`{Distance_km: 5.5, Fuel_Price: "60-69", Time_of_Day: "Rush Hour Morning",
Weather: "Sunny", Vehicle_Type: "Tricycle"}`, also Test 2 of
`src/test_api.py`. -/
def scenarioPayload : Req :=
  [(distField, JValue.jnum (mkRat 11 2)), (fuelField, JValue.jstr fuel6069),
   (timeField, JValue.jstr morningStr), (weatherField, JValue.jstr sunnyStr),
   (vehicleField, JValue.jstr tricycleStr)]

/-- The scenario payload with the backend's ₱-prefixed fuel bracket. -/
def backendScenarioPayload : Req :=
  [(distField, JValue.jnum (mkRat 11 2)), (fuelField, JValue.jstr pesoFuel6069),
   (timeField, JValue.jstr morningStr), (weatherField, JValue.jstr sunnyStr),
   (vehicleField, JValue.jstr tricycleStr)]

/-- The scenario payload with `Time_of_Day` omitted. -/
def missingTimePayload : Req :=
  [(distField, JValue.jnum (mkRat 11 2)), (fuelField, JValue.jstr fuel6069),
   (weatherField, JValue.jstr sunnyStr), (vehicleField, JValue.jstr tricycleStr)]

/-- The scenario payload with `Distance_km: 1500`, above both ceilings. -/
def farPayload : Req :=
  [(distField, JValue.jnum (mkRat 1500 1)), (fuelField, JValue.jstr fuel6069),
   (timeField, JValue.jstr morningStr), (weatherField, JValue.jstr sunnyStr),
   (vehicleField, JValue.jstr tricycleStr)]

/-- The scenario payload with `Fuel_Price: "invalid-price"` (Test 6 of
`src/test_api.py`). -/
def badFuelPayload : Req :=
  [(distField, JValue.jnum (mkRat 11 2)), (fuelField, JValue.jstr invalidPriceStr),
   (timeField, JValue.jstr morningStr), (weatherField, JValue.jstr sunnyStr),
   (vehicleField, JValue.jstr tricycleStr)]

/-- The scenario payload with `Distance_km` given as the JSON string "5.5". -/
def strDistPayload : Req :=
  [(distField, JValue.jstr strFiveFive), (fuelField, JValue.jstr fuel6069),
   (timeField, JValue.jstr morningStr), (weatherField, JValue.jstr sunnyStr),
   (vehicleField, JValue.jstr tricycleStr)]

/-- A model stand-in that predicts a negative fare on every vector. -/
def negModel : List ℚ → ℚ := fun _ => mkRat (-5) 1

/-- A model stand-in that predicts the fare 42 on every vector. -/
def constModel : List ℚ → ℚ := fun _ => 42

/-- Arbitrary loaded-artifact stand-ins for instantiating the backend pipeline. -/
def zeroModel : List ℚ → ℚ := fun _ => 0

def zeroPre : Req → List ℚ := fun _ => []

def zeroScaler : List ℚ → List ℚ := fun _ => []


theorem findSomeOfExists {α : Type} {p : α → Bool} :
    ∀ {l : List α}, (∃ x ∈ l, p x = true) →
      ∃ m, l.find? p = some m ∧ m ∈ l ∧ p m = true := by
  intro l h
  induction l with
  | nil => simp at h
  | cons a t ih =>
    by_cases ha : p a = true
    · exact ⟨a, by rw [List.find?_cons_of_pos _ ha], by simp, ha⟩
    · rcases h with ⟨x, hx, hpx⟩
      have hafalse : p a = false := by
        cases hpa : p a with
        | true => exact absurd hpa ha
        | false => rfl
      rcases List.mem_cons.mp hx with rfl | hxt
      · exact absurd hpx ha
      · rcases ih ⟨x, hxt, hpx⟩ with ⟨m, hm1, hm2, hm3⟩
        refine ⟨m, ?_, List.mem_cons_of_mem a hm2, hm3⟩
        rw [List.find?_cons_of_neg _ (by simp [hafalse]), hm1]

theorem findNoneOfAll {α : Type} {p : α → Bool} {l : List α}
    (h : ∀ x ∈ l, p x = false) : l.find? p = none := by
  induction l with
  | nil => rfl
  | cons a t ih =>
    rw [List.find?_cons_of_neg _ (by simp [h a (by simp)])]
    exact ih (fun x hx => h x (List.mem_cons_of_mem a hx))

theorem ficAllValid {data : Req} :
    ∀ {l : List (String × List String)}, firstInvalidCategory data l = none →
      ∀ fv ∈ l, jvalMemStr (lookupField data fv.1) fv.2 = true := by
  intro l h fv hfv
  induction l with
  | nil => simp at hfv
  | cons a t ih =>
    unfold firstInvalidCategory at h
    by_cases ha : jvalMemStr (lookupField data a.1) a.2 = true
    · rw [if_pos ha] at h
      rcases List.mem_cons.mp hfv with rfl | hft
      · exact ha
      · exact ih h hft
    · rw [if_neg ha] at h
      exact absurd h (by simp)

theorem ficSomeOfExists {data : Req} :
    ∀ {l : List (String × List String)},
      (∃ fv ∈ l, jvalMemStr (lookupField data fv.1) fv.2 = false) →
      ∃ g gvals, firstInvalidCategory data l = some (g, lookupField data g, gvals) ∧
        (g, gvals) ∈ l ∧ jvalMemStr (lookupField data g) gvals = false := by
  intro l h
  induction l with
  | nil => simp at h
  | cons a t ih =>
    unfold firstInvalidCategory
    by_cases ha : jvalMemStr (lookupField data a.1) a.2 = true
    · rw [if_pos ha]
      rcases h with ⟨fv, hfv, hbad⟩
      rcases List.mem_cons.mp hfv with rfl | hft
      · rw [ha] at hbad; exact absurd hbad (by simp)
      · rcases ih ⟨fv, hft, hbad⟩ with ⟨g, gvals, h1, h2, h3⟩
        exact ⟨g, gvals, h1, List.mem_cons_of_mem a h2, h3⟩
    · rw [if_neg ha]
      refine ⟨a.1, a.2, rfl, by simp, ?_⟩
      cases hv : jvalMemStr (lookupField data a.1) a.2 with
      | true => exact absurd hv ha
      | false => rfl

theorem validate_eq_missing {v : Variant} {data : Req} {f : String}
    (h : requiredFields.find? (fun g => !hasField data g) = some f) :
    validate_input_data v data = (false, some (missingFieldMsg f)) := by
  unfold validate_input_data
  rw [h]

theorem validate_eq_allPresent {v : Variant} {data : Req}
    (h : requiredFields.find? (fun g => !hasField data g) = none) :
    validate_input_data v data =
      (match pyFloat (lookupField data distField) with
       | none => (false, some distanceNotNumberMsg)
       | some d =>
         if d ≤ 0 then (false, some distanceNotPositiveMsg)
         else if v.distCeiling < d then (false, some v.ceilingMsg)
         else
           match firstInvalidCategory data v.validValues with
           | some fvv => (false, some (invalidCategoryMsg fvv.1 fvv.2.1 fvv.2.2))
           | none => (true, none)) := by
  unfold validate_input_data
  rw [h]

theorem allPresent_find_none {data : Req}
    (hp : ∀ f ∈ requiredFields, hasField data f = true) :
    requiredFields.find? (fun g => !hasField data g) = none :=
  findNoneOfAll (fun x hx => by simp [hp x hx])

theorem validate_eq_nonpos {v : Variant} {data : Req} {d : ℚ}
    (hp : ∀ f ∈ requiredFields, hasField data f = true)
    (hd : pyFloat (lookupField data distField) = some d) (h0 : d ≤ 0) :
    validate_input_data v data = (false, some distanceNotPositiveMsg) := by
  rw [validate_eq_allPresent (allPresent_find_none hp), hd]
  simp [h0]

theorem validate_eq_ceiling {v : Variant} {data : Req} {d : ℚ}
    (hp : ∀ f ∈ requiredFields, hasField data f = true)
    (hd : pyFloat (lookupField data distField) = some d) (h0 : ¬ d ≤ 0)
    (hc : v.distCeiling < d) :
    validate_input_data v data = (false, some v.ceilingMsg) := by
  rw [validate_eq_allPresent (allPresent_find_none hp), hd]
  simp [h0, hc]

theorem validate_eq_invalidCat {v : Variant} {data : Req} {d : ℚ}
    {g : String} {val : JValue} {gvals : List String}
    (hp : ∀ f ∈ requiredFields, hasField data f = true)
    (hd : pyFloat (lookupField data distField) = some d) (h0 : ¬ d ≤ 0)
    (hc : ¬ v.distCeiling < d)
    (hf : firstInvalidCategory data v.validValues = some (g, val, gvals)) :
    validate_input_data v data = (false, some (invalidCategoryMsg g val gvals)) := by
  rw [validate_eq_allPresent (allPresent_find_none hp), hd]
  simp [h0, hc, hf]

theorem validate_eq_ok {v : Variant} {data : Req} {d : ℚ}
    (hp : ∀ f ∈ requiredFields, hasField data f = true)
    (hd : pyFloat (lookupField data distField) = some d) (h0 : ¬ d ≤ 0)
    (hc : ¬ v.distCeiling < d)
    (hf : firstInvalidCategory data v.validValues = none) :
    validate_input_data v data = (true, none) := by
  rw [validate_eq_allPresent (allPresent_find_none hp), hd]
  simp [h0, hc, hf]

theorem validate_true_inv {v : Variant} {data : Req}
    (h : (validate_input_data v data).1 = true) :
    requiredFields.find? (fun g => !hasField data g) = none ∧
    (∃ d, pyFloat (lookupField data distField) = some d ∧ 0 < d ∧ d ≤ v.distCeiling) ∧
    firstInvalidCategory data v.validValues = none := by
  unfold validate_input_data at h
  split at h
  · simp at h
  · rename_i hfind
    refine ⟨hfind, ?_⟩
    split at h
    · simp at h
    · rename_i d hd
      split at h
      · simp at h
      · rename_i h0
        split at h
        · simp at h
        · rename_i hc
          split at h
          · simp at h
          · rename_i hf
            exact ⟨⟨d, hd, lt_of_not_le h0, le_of_not_lt hc⟩, hf⟩

theorem validate_false_snd {v : Variant} {data : Req}
    (h : (validate_input_data v data).1 = false) :
    ∃ msg, (validate_input_data v data).2 = some msg := by
  unfold validate_input_data at h ⊢
  split
  · exact ⟨_, rfl⟩
  · rename_i hfind
    split
    · exact ⟨_, rfl⟩
    · rename_i d hd
      split
      · exact ⟨_, rfl⟩
      · rename_i h0
        split
        · exact ⟨_, rfl⟩
        · rename_i hc
          split
          · exact ⟨_, rfl⟩
          · rename_i hf
            simp [hfind, hd, h0, hc, hf] at h

theorem api_predict_noModel (isJson : Bool) (data : Req) :
    api_predict none isJson data = (errResponse 500 modelUnavailableMsg, false) := rfl

theorem api_predict_invalid {data : Req} (m : List ℚ → ℚ)
    (h : (validate_input_data apiVariant data).1 = false) :
    api_predict (some m) true data =
      (⟨400, (validate_input_data apiVariant data).2, none, none, none, none⟩, false) := by
  simp [api_predict, h]

theorem api_predict_valid {data : Req} {vec : List ℚ} (m : List ℚ → ℚ)
    (h : (validate_input_data apiVariant data).1 = true)
    (hp : prepare_input_dataframe data = some vec) :
    api_predict (some m) true data =
      (⟨200, none, none, some (round2 (m vec)), some data, none⟩, true) := by
  simp [api_predict, h, hp]

theorem backend_predict_noPipe {pipe : BackendPipeline}
    (h : pipe.model = none ∨ pipe.preprocessor = none ∨ pipe.scaler = none)
    (isJson : Bool) (data : Req) :
    backend_predict pipe isJson data = (errResponse 500 pipelineUnavailableMsg, false) := by
  cases pipe with
  | mk mo pr sc =>
    cases mo with
    | none => rfl
    | some m =>
      cases pr with
      | none => rfl
      | some p =>
        cases sc with
        | none => rfl
        | some s => rcases h with h | h | h <;> simp at h

theorem backend_predict_invalid {data : Req} (m : List ℚ → ℚ) (p : Req → List ℚ)
    (s : List ℚ → List ℚ) (h : (validate_input_data backendVariant data).1 = false) :
    backend_predict ⟨some m, some p, some s⟩ true data =
      (⟨400, (validate_input_data backendVariant data).2, none, none, none,
        some backendFuelPrices⟩, false) := by
  simp [backend_predict, h]

theorem backend_predict_valid {data : Req} (m : List ℚ → ℚ) (p : Req → List ℚ)
    (s : List ℚ → List ℚ) (h : (validate_input_data backendVariant data).1 = true) :
    backend_predict ⟨some m, some p, some s⟩ true data =
      (⟨200, none, none, some (max 0 (round2 (prepare_and_predict m p s data))),
        some data, none⟩, true) := by
  simp [backend_predict, h]

theorem jvalMemStr_true {val : JValue} {vals : List String}
    (h : jvalMemStr val vals = true) : ∃ s, val = JValue.jstr s ∧ s ∈ vals := by
  cases val with
  | jstr s => exact ⟨s, rfl, of_decide_eq_true h⟩
  | jnum q => simp [jvalMemStr] at h
  | jbool b => simp [jvalMemStr] at h
  | jnull => simp [jvalMemStr] at h
  | jother => simp [jvalMemStr] at h

theorem fuelEncode_total {s : String} (hs : s ∈ apiFuelPrices) :
    ∃ q, alookup s fuelEncoding = some q := by
  simp [apiFuelPrices] at hs
  rcases hs with rfl | rfl | rfl | rfl | rfl | rfl | rfl | rfl | rfl <;> exact ⟨_, rfl⟩

theorem timeEncode_total {s : String} (hs : s ∈ timesOfDay) :
    ∃ q, alookup s timeEncoding = some q := by
  simp [timesOfDay] at hs
  rcases hs with rfl | rfl | rfl <;> exact ⟨_, rfl⟩

theorem weatherEncode_total {s : String} (hs : s ∈ weatherKinds) :
    ∃ q, alookup s weatherEncoding = some q := by
  simp [weatherKinds] at hs
  rcases hs with rfl | rfl <;> exact ⟨_, rfl⟩

theorem vehicleEncode_total {s : String} (hs : s ∈ vehicleTypes) :
    ∃ q, alookup s vehicleEncoding = some q := by
  simp [vehicleTypes] at hs
  rcases hs with rfl | rfl <;> exact ⟨_, rfl⟩

theorem prepare_of_valid {data : Req}
    (h : (validate_input_data apiVariant data).1 = true) :
    ∃ d fq tq wq vq,
      pyFloat (lookupField data distField) = some d ∧
      encodeWith fuelEncoding (lookupField data fuelField) = some fq ∧
      encodeWith timeEncoding (lookupField data timeField) = some tq ∧
      encodeWith weatherEncoding (lookupField data weatherField) = some wq ∧
      encodeWith vehicleEncoding (lookupField data vehicleField) = some vq ∧
      prepare_input_dataframe data = some [d, fq, tq, wq, vq] := by
  obtain ⟨-, ⟨d, hd, -, -⟩, hfic⟩ := validate_true_inv h
  have hmf := ficAllValid hfic (fuelField, apiFuelPrices) (by simp [apiVariant])
  have hmt := ficAllValid hfic (timeField, timesOfDay) (by simp [apiVariant])
  have hmw := ficAllValid hfic (weatherField, weatherKinds) (by simp [apiVariant])
  have hmv := ficAllValid hfic (vehicleField, vehicleTypes) (by simp [apiVariant])
  obtain ⟨sf, hsf, hsfm⟩ := jvalMemStr_true hmf
  obtain ⟨st, hst, hstm⟩ := jvalMemStr_true hmt
  obtain ⟨sw, hsw, hswm⟩ := jvalMemStr_true hmw
  obtain ⟨sv, hsv, hsvm⟩ := jvalMemStr_true hmv
  obtain ⟨fq, hfq⟩ := fuelEncode_total hsfm
  obtain ⟨tq, htq⟩ := timeEncode_total hstm
  obtain ⟨wq, hwq⟩ := weatherEncode_total hswm
  obtain ⟨vq, hvq⟩ := vehicleEncode_total hsvm
  refine ⟨d, fq, tq, wq, vq, hd, ?_, ?_, ?_, ?_, ?_⟩
  · rw [hsf]; exact hfq
  · rw [hst]; exact htq
  · rw [hsw]; exact hwq
  · rw [hsv]; exact hvq
  · simp [prepare_input_dataframe, hd, hsf, hst, hsw, hsv,
      encodeWith, hfq, htq, hwq, hvq]

theorem round2_twoDecimals (x : ℚ) : twoDecimals (round2 x) := by
  unfold round2 twoDecimals
  split
  · exact ⟨⌊100 * x⌋, rfl⟩
  · split
    · exact ⟨⌊100 * x⌋ + 1, by push_cast; ring⟩
    · split
      · exact ⟨⌊100 * x⌋, rfl⟩
      · exact ⟨⌊100 * x⌋ + 1, by push_cast; ring⟩

theorem round2_nonneg {x : ℚ} (h : 0 ≤ x) : 0 ≤ round2 x := by
  unfold round2
  have hf : (0:ℤ) ≤ ⌊100 * x⌋ := Int.floor_nonneg.mpr (by positivity)
  have hf1 : (0:ℚ) ≤ (⌊100 * x⌋ : ℚ) := by exact_mod_cast hf
  have hf2 : (0:ℚ) ≤ (⌊100 * x⌋ : ℚ) + 1 := by linarith
  split
  · exact div_nonneg hf1 (by norm_num)
  · split
    · exact div_nonneg hf2 (by norm_num)
    · split
      · exact div_nonneg hf1 (by norm_num)
      · exact div_nonneg hf2 (by norm_num)

theorem round2_intCast (n : ℤ) : round2 ((n : ℚ)) = (n : ℚ) := by
  unfold round2
  have h1 : (100 : ℚ) * (n : ℚ) = ((100 * n : ℤ) : ℚ) := by push_cast; ring
  rw [h1, Int.floor_intCast, sub_self, if_pos (by norm_num)]
  push_cast
  ring

theorem max0_twoDecimals {q : ℚ} (h : twoDecimals q) : twoDecimals (max 0 q) := by
  rcases h with ⟨n, rfl⟩
  rcases le_total 0 ((n : ℚ) / 100) with h0 | h0
  · rw [max_eq_right h0]; exact ⟨n, rfl⟩
  · rw [max_eq_left h0]; exact ⟨0, by norm_num⟩

theorem round2_neg5 : round2 (mkRat (-5) 1) = mkRat (-5) 1 := by
  have hc : ((-5 : ℤ) : ℚ) = mkRat (-5) 1 := by decide
  have h := round2_intCast (-5)
  rwa [hc] at h

theorem round2_42 : round2 (42 : ℚ) = 42 := by
  have h := round2_intCast 42
  have hc : ((42 : ℤ) : ℚ) = (42 : ℚ) := by norm_num
  rwa [hc] at h


theorem find_missing_first {data : Req} {f : String} (hf : f ∈ requiredFields)
    (habs : hasField data f = false)
    (hothers : ∀ g ∈ requiredFields, g ≠ f → hasField data g = true) :
    requiredFields.find? (fun g => !hasField data g) = some f := by
  simp only [requiredFields] at hf ⊢
  rcases List.mem_cons.mp hf with rfl | hf
  · simp [List.find?, habs]
  rcases List.mem_cons.mp hf with rfl | hf
  · have h1 := hothers "Distance_km" (by decide) (by decide)
    simp [List.find?, h1, habs]
  rcases List.mem_cons.mp hf with rfl | hf
  · have h1 := hothers "Distance_km" (by decide) (by decide)
    have h2 := hothers "Fuel_Price" (by decide) (by decide)
    simp [List.find?, h1, h2, habs]
  rcases List.mem_cons.mp hf with rfl | hf
  · have h1 := hothers "Distance_km" (by decide) (by decide)
    have h2 := hothers "Fuel_Price" (by decide) (by decide)
    have h3 := hothers "Time_of_Day" (by decide) (by decide)
    simp [List.find?, h1, h2, h3, habs]
  rcases List.mem_cons.mp hf with rfl | hf
  · have h1 := hothers "Distance_km" (by decide) (by decide)
    have h2 := hothers "Fuel_Price" (by decide) (by decide)
    have h3 := hothers "Time_of_Day" (by decide) (by decide)
    have h4 := hothers "Weather" (by decide) (by decide)
    simp [List.find?, h1, h2, h3, h4, habs]
  · simp at hf

/-- C2: a request missing a required field fails validation with the message
naming a missing field; when the given field is the only missing one, the
message names exactly that field.  Holds for every `Variant`, hence for both
serving variants. -/
theorem claim2_missing_field (v : Variant) (data : Req) (f : String)
    (hf : f ∈ requiredFields) (habs : hasField data f = false) :
    (∃ m, m ∈ requiredFields ∧ hasField data m = false ∧
       validate_input_data v data = (false, some (missingFieldMsg m))) ∧
    ((∀ g ∈ requiredFields, g ≠ f → hasField data g = true) →
       validate_input_data v data = (false, some (missingFieldMsg f))) := by
  constructor
  · have hex : ∃ x ∈ requiredFields, (!hasField data x) = true :=
      ⟨f, hf, by simp [habs]⟩
    obtain ⟨m, hfind, hm, hpm⟩ := findSomeOfExists hex
    have hm2 : hasField data m = false := by
      cases hb : hasField data m with
      | true => rw [hb] at hpm; simp at hpm
      | false => rfl
    exact ⟨m, hm, hm2, validate_eq_missing hfind⟩
  · intro hothers
    exact validate_eq_missing (find_missing_first hf habs hothers)

theorem claim2_witness :
    validate_input_data apiVariant missingTimePayload =
      (false, some (missingFieldMsg timeField)) :=
  (claim2_missing_field apiVariant missingTimePayload timeField (by decide)
    (by decide)).2 (by decide)

/-- C3: an out-of-range distance fails validation and yields a 400 without
invoking the model. -/
theorem claim3_out_of_range (data : Req) (d : ℚ)
    (hp : ∀ f ∈ requiredFields, hasField data f = true)
    (hd : pyFloat (lookupField data distField) = some d) :
    (∀ v : Variant, d ≤ 0 →
       validate_input_data v data = (false, some distanceNotPositiveMsg)) ∧
    (∀ v : Variant, ¬ d ≤ 0 → v.distCeiling < d →
       validate_input_data v data = (false, some v.ceilingMsg)) ∧
    (d ≤ 0 ∨ (1000 : ℚ) < d → ∀ m,
       (api_predict (some m) true data).1.status = 400 ∧
       (api_predict (some m) true data).2 = false) ∧
    (d ≤ 0 ∨ (100 : ℚ) < d → ∀ m p s,
       (backend_predict ⟨some m, some p, some s⟩ true data).1.status = 400 ∧
       (backend_predict ⟨some m, some p, some s⟩ true data).2 = false) := by
  refine ⟨fun v h0 => validate_eq_nonpos hp hd h0,
    fun v h0 hc => validate_eq_ceiling hp hd h0 hc, ?_, ?_⟩
  · intro hout m
    have hfalse : (validate_input_data apiVariant data).1 = false := by
      rcases hout with h0 | hc
      · rw [validate_eq_nonpos hp hd h0]
      · by_cases h0 : d ≤ 0
        · rw [validate_eq_nonpos hp hd h0]
        · rw [validate_eq_ceiling hp hd h0 hc]
    rw [api_predict_invalid m hfalse]
    exact ⟨rfl, rfl⟩
  · intro hout m p s
    have hfalse : (validate_input_data backendVariant data).1 = false := by
      rcases hout with h0 | hc
      · rw [validate_eq_nonpos hp hd h0]
      · by_cases h0 : d ≤ 0
        · rw [validate_eq_nonpos hp hd h0]
        · rw [validate_eq_ceiling hp hd h0 hc]
    rw [backend_predict_invalid m p s hfalse]
    exact ⟨rfl, rfl⟩

theorem claim3_witness :
    validate_input_data apiVariant farPayload = (false, some apiCeilingMsg) ∧
    validate_input_data backendVariant farPayload = (false, some backendCeilingMsg) ∧
    (api_predict (some constModel) true farPayload).1.status = 400 ∧
    (backend_predict ⟨some zeroModel, some zeroPre, some zeroScaler⟩ true farPayload).2 =
      false := by
  have h := claim3_out_of_range farPayload (mkRat 1500 1) (by decide) (by decide)
  exact ⟨h.2.1 apiVariant (by decide) (by decide),
    h.2.1 backendVariant (by decide) (by decide),
    (h.2.2.1 (Or.inr (by decide)) constModel).1,
    (h.2.2.2 (Or.inr (by decide)) zeroModel zeroPre zeroScaler).2⟩

/-- C4: a categorical field outside its enumeration fails validation with the
message naming an offending field and spelling out that field's accepted
values. -/
theorem claim4_invalid_category (v : Variant) (data : Req) (d : ℚ)
    (hp : ∀ f ∈ requiredFields, hasField data f = true)
    (hd : pyFloat (lookupField data distField) = some d)
    (h0 : ¬ d ≤ 0) (hc : ¬ v.distCeiling < d)
    (hbad : ∃ fv ∈ v.validValues, jvalMemStr (lookupField data fv.1) fv.2 = false) :
    ∃ g gvals, (g, gvals) ∈ v.validValues ∧
      jvalMemStr (lookupField data g) gvals = false ∧
      validate_input_data v data =
        (false, some (invalidCategoryMsg g (lookupField data g) gvals)) := by
  obtain ⟨g, gvals, hfic, hmem, hbadg⟩ := ficSomeOfExists hbad
  exact ⟨g, gvals, hmem, hbadg, validate_eq_invalidCat hp hd h0 hc hfic⟩

theorem claim4_witness :
    ∃ g gvals, (g, gvals) ∈ apiVariant.validValues ∧
      jvalMemStr (lookupField badFuelPayload g) gvals = false ∧
      validate_input_data apiVariant badFuelPayload =
        (false, some (invalidCategoryMsg g (lookupField badFuelPayload g) gvals)) :=
  claim4_invalid_category apiVariant badFuelPayload (mkRat 11 2) (by decide)
    (by decide) (by decide) (by decide) (by decide)

/-- C5: on the validated domain the api encoder is total and pure, and its
output vector is `[Distance_km, Fuel_Price code, Time_of_Day code, Weather
code, Vehicle_Type code]` from the static tables. -/
theorem claim5_encoding_pure (data : Req)
    (h : (validate_input_data apiVariant data).1 = true) :
    (∀ data2 : Req, data2 = data →
       prepare_input_dataframe data2 = prepare_input_dataframe data) ∧
    ∃ d fq tq wq vq,
      pyFloat (lookupField data distField) = some d ∧
      encodeWith fuelEncoding (lookupField data fuelField) = some fq ∧
      encodeWith timeEncoding (lookupField data timeField) = some tq ∧
      encodeWith weatherEncoding (lookupField data weatherField) = some wq ∧
      encodeWith vehicleEncoding (lookupField data vehicleField) = some vq ∧
      prepare_input_dataframe data = some [d, fq, tq, wq, vq] :=
  ⟨fun _ h2 => by rw [h2], prepare_of_valid h⟩

theorem claim5_witness :
    (∀ data2 : Req, data2 = scenarioPayload →
       prepare_input_dataframe data2 = prepare_input_dataframe scenarioPayload) ∧
    ∃ d fq tq wq vq,
      pyFloat (lookupField scenarioPayload distField) = some d ∧
      encodeWith fuelEncoding (lookupField scenarioPayload fuelField) = some fq ∧
      encodeWith timeEncoding (lookupField scenarioPayload timeField) = some tq ∧
      encodeWith weatherEncoding (lookupField scenarioPayload weatherField) = some wq ∧
      encodeWith vehicleEncoding (lookupField scenarioPayload vehicleField) = some vq ∧
      prepare_input_dataframe scenarioPayload = some [d, fq, tq, wq, vq] :=
  claim5_encoding_pure scenarioPayload (by decide)

/-- C6: with a missing artifact the handlers answer 500 to every request,
independently of the request, without entering validation or prediction and
without any reload. -/
theorem claim6_model_unavailable :
    (∀ (isJson : Bool) (data : Req),
       api_predict none isJson data = (errResponse 500 modelUnavailableMsg, false)) ∧
    (∀ pipe : BackendPipeline,
       pipe.model = none ∨ pipe.preprocessor = none ∨ pipe.scaler = none →
       ∀ (isJson : Bool) (data : Req),
         backend_predict pipe isJson data =
           (errResponse 500 pipelineUnavailableMsg, false)) :=
  ⟨fun isJson data => api_predict_noModel isJson data,
   fun _ h isJson data => backend_predict_noPipe h isJson data⟩

theorem claim6_witness :
    api_predict none true scenarioPayload = (errResponse 500 modelUnavailableMsg, false) ∧
    backend_predict ⟨none, none, none⟩ true scenarioPayload =
      (errResponse 500 pipelineUnavailableMsg, false) :=
  ⟨claim6_model_unavailable.1 true scenarioPayload,
   claim6_model_unavailable.2 ⟨none, none, none⟩ (Or.inl rfl) true scenarioPayload⟩

/-- C7: the spec scenario payload (fuel bracket "60-69") is rejected by the
backend `/predict` validator, whose enumeration is ₱-prefixed, while the api
`/api/predict` variant accepts it and answers 200 with a rounded fare — the
divergence behind the failing `src/test_api.py` Test 2. -/
theorem claim7_scenario_divergence :
    validate_input_data backendVariant scenarioPayload =
      (false, some (invalidCategoryMsg fuelField (JValue.jstr fuel6069) backendFuelPrices)) ∧
    (backend_predict ⟨some zeroModel, some zeroPre, some zeroScaler⟩ true
      scenarioPayload).1.status = 400 ∧
    validate_input_data apiVariant scenarioPayload = (true, none) ∧
    (api_predict (some constModel) true scenarioPayload).1.status = 200 ∧
    (api_predict (some constModel) true scenarioPayload).1.predicted_fare = some 42 ∧
    (0 : ℚ) ≤ 42 ∧ twoDecimals (42 : ℚ) := by
  have hbf : (validate_input_data backendVariant scenarioPayload).1 = false := by decide
  have hav : (validate_input_data apiVariant scenarioPayload).1 = true := by decide
  have hprep : prepare_input_dataframe scenarioPayload = some [mkRat 11 2, 5, 2, 1, 1] := by
    decide
  refine ⟨by decide, ?_, by decide, ?_, ?_, by norm_num, ⟨4200, by norm_num⟩⟩
  · rw [backend_predict_invalid zeroModel zeroPre zeroScaler hbf]
  · rw [api_predict_valid constModel hav hprep]
  · rw [api_predict_valid constModel hav hprep]
    show some (round2 (constModel [mkRat 11 2, 5, 2, 1, 1])) = some 42
    rw [show constModel [mkRat 11 2, 5, 2, 1, 1] = (42 : ℚ) from rfl, round2_42]

/-- C8: a request failing validation short-circuits: 400, an error message,
no fare, and the encoding/prediction stage never entered, in both variants. -/
theorem claim8_short_circuit (data : Req) :
    ((validate_input_data apiVariant data).1 = false → ∀ m,
       (api_predict (some m) true data).1.status = 400 ∧
       (∃ msg, (api_predict (some m) true data).1.error = some msg) ∧
       (api_predict (some m) true data).1.predicted_fare = none ∧
       (api_predict (some m) true data).2 = false) ∧
    ((validate_input_data backendVariant data).1 = false → ∀ m p s,
       (backend_predict ⟨some m, some p, some s⟩ true data).1.status = 400 ∧
       (∃ msg, (backend_predict ⟨some m, some p, some s⟩ true data).1.error = some msg) ∧
       (backend_predict ⟨some m, some p, some s⟩ true data).1.predicted_fare = none ∧
       (backend_predict ⟨some m, some p, some s⟩ true data).2 = false) := by
  constructor
  · intro h m
    obtain ⟨msg, hmsg⟩ := validate_false_snd h
    rw [api_predict_invalid m h]
    exact ⟨rfl, ⟨msg, hmsg⟩, rfl, rfl⟩
  · intro h m p s
    obtain ⟨msg, hmsg⟩ := validate_false_snd h
    rw [backend_predict_invalid m p s h]
    exact ⟨rfl, ⟨msg, hmsg⟩, rfl, rfl⟩

theorem claim8_witness :
    (api_predict (some constModel) true missingTimePayload).1.status = 400 ∧
    (api_predict (some constModel) true missingTimePayload).1.predicted_fare = none ∧
    (api_predict (some constModel) true missingTimePayload).2 = false := by
  have h := (claim8_short_circuit missingTimePayload).1 (by decide) constModel
  exact ⟨h.1, h.2.2.1, h.2.2.2⟩

/-- C9: every backend validation-failure response carries the full
`valid_fuel_prices` enumeration, whatever field failed. -/
theorem claim9_fuel_prices_always (data : Req)
    (h : (validate_input_data backendVariant data).1 = false) :
    ∀ m p s,
      (backend_predict ⟨some m, some p, some s⟩ true data).1.status = 400 ∧
      (backend_predict ⟨some m, some p, some s⟩ true data).1.valid_fuel_prices =
        some backendFuelPrices := by
  intro m p s
  rw [backend_predict_invalid m p s h]
  exact ⟨rfl, rfl⟩

theorem claim9_witness :
    (backend_predict ⟨some zeroModel, some zeroPre, some zeroScaler⟩ true
      missingTimePayload).1.valid_fuel_prices = some backendFuelPrices :=
  (claim9_fuel_prices_always missingTimePayload (by decide)
    zeroModel zeroPre zeroScaler).2

theorem parse_five_five : pyFloat (JValue.jstr strFiveFive) = some (mkRat 11 2) := by
  have h : pyFloat (JValue.jstr strFiveFive) =
      some ((1 : ℚ) * ((digitsToNat ['5'] : ℚ) +
        (digitsToNat ['5'] : ℚ) / (10 : ℚ) ^ (['5'] : List Char).length)) := rfl
  rw [h]
  have h2 : digitsToNat ['5'] = 5 := rfl
  rw [h2]
  have h3 : mkRat 11 2 = (11 : ℚ) / 2 := by
    rw [Rat.mkRat_eq_div]
    norm_num
  rw [h3]
  norm_num

/-- C10: `Distance_km` is accepted in any form Python `float()` converts —
JSON numbers, numeric strings, booleans — and an in-range converted value
passes validation and reaches encoding and prediction. -/
theorem claim10_float_coercion (data : Req) (val : JValue) (d : ℚ)
    (hp : ∀ f ∈ requiredFields, hasField data f = true)
    (hval : lookupField data distField = val)
    (hd : pyFloat val = some d) (h0 : 0 < d) :
    (∀ v : Variant, ¬ v.distCeiling < d →
       firstInvalidCategory data v.validValues = none →
       validate_input_data v data = (true, none)) ∧
    (¬ (1000 : ℚ) < d → firstInvalidCategory data apiVariant.validValues = none →
       ∀ m, ∃ vec, prepare_input_dataframe data = some vec ∧
         api_predict (some m) true data =
           (⟨200, none, none, some (round2 (m vec)), some data, none⟩, true)) ∧
    (¬ (100 : ℚ) < d → firstInvalidCategory data backendVariant.validValues = none →
       ∀ m p s, backend_predict ⟨some m, some p, some s⟩ true data =
         (⟨200, none, none, some (max 0 (round2 (prepare_and_predict m p s data))),
           some data, none⟩, true)) := by
  have hd2 : pyFloat (lookupField data distField) = some d := by rw [hval]; exact hd
  refine ⟨fun v hc hfic => validate_eq_ok hp hd2 (not_le.mpr h0) hc hfic, ?_, ?_⟩
  · intro hc hfic m
    have hvalid : (validate_input_data apiVariant data).1 = true := by
      rw [validate_eq_ok hp hd2 (not_le.mpr h0) hc hfic]
    obtain ⟨dd, fq, tq, wq, vq, -, -, -, -, -, hprep⟩ := prepare_of_valid hvalid
    exact ⟨[dd, fq, tq, wq, vq], hprep, api_predict_valid m hvalid hprep⟩
  · intro hc hfic m p s
    have hvalid : (validate_input_data backendVariant data).1 = true := by
      rw [validate_eq_ok hp hd2 (not_le.mpr h0) hc hfic]
    exact backend_predict_valid m p s hvalid

theorem claim10_witness :
    validate_input_data apiVariant strDistPayload = (true, none) ∧
    (∃ vec, prepare_input_dataframe strDistPayload = some vec ∧
       api_predict (some constModel) true strDistPayload =
         (⟨200, none, none, some (round2 (constModel vec)), some strDistPayload,
           none⟩, true)) := by
  have h := claim10_float_coercion strDistPayload (JValue.jstr strFiveFive) (mkRat 11 2)
    (by decide) (by decide) parse_five_five (by decide)
  exact ⟨h.1 apiVariant (by decide) (by decide), h.2.1 (by decide) (by decide) constModel⟩

/-- C1 (amended): on the 200 path the backend variant returns
`max 0 (round(fare, 2))` — non-negative and rounded to 2 decimals — while the
api variant returns `round(fare, 2)` only: rounded to 2 decimals but with no
non-negative clamp. -/
theorem claim1_round_clamp (data : Req) :
    (∀ m p s, (validate_input_data backendVariant data).1 = true →
       ∃ q, (backend_predict ⟨some m, some p, some s⟩ true data).1.predicted_fare =
           some q ∧
         0 ≤ q ∧ twoDecimals q ∧
         q = max 0 (round2 (prepare_and_predict m p s data))) ∧
    (∀ m, (validate_input_data apiVariant data).1 = true →
       ∃ vec q, prepare_input_dataframe data = some vec ∧
         (api_predict (some m) true data).1.predicted_fare = some q ∧
         twoDecimals q ∧ q = round2 (m vec)) := by
  constructor
  · intro m p s h
    refine ⟨max 0 (round2 (prepare_and_predict m p s data)), ?_, le_max_left 0 _,
      max0_twoDecimals (round2_twoDecimals _), rfl⟩
    rw [backend_predict_valid m p s h]
  · intro m h
    obtain ⟨d, fq, tq, wq, vq, -, -, -, -, -, hprep⟩ := prepare_of_valid h
    refine ⟨[d, fq, tq, wq, vq], round2 (m [d, fq, tq, wq, vq]), hprep, ?_,
      round2_twoDecimals _, rfl⟩
    rw [api_predict_valid m h hprep]

theorem claim1_witness :
    (∃ q, (backend_predict ⟨some constModel, some zeroPre, some zeroScaler⟩ true
         backendScenarioPayload).1.predicted_fare = some q ∧
       0 ≤ q ∧ twoDecimals q ∧
       q = max 0 (round2 (prepare_and_predict constModel zeroPre zeroScaler
         backendScenarioPayload))) ∧
    (∃ vec q, prepare_input_dataframe scenarioPayload = some vec ∧
       (api_predict (some constModel) true scenarioPayload).1.predicted_fare = some q ∧
       twoDecimals q ∧ q = round2 (constModel vec)) :=
  ⟨(claim1_round_clamp backendScenarioPayload).1 constModel zeroPre zeroScaler
     (by decide),
   (claim1_round_clamp scenarioPayload).2 constModel (by decide)⟩

/-- C1 counterexample: the api variant does not clamp — a model predicting -5
on the valid scenario payload yields a 200 response whose `predicted_fare` is
the negative -5. -/
theorem claim1_counterexample :
    (validate_input_data apiVariant scenarioPayload).1 = true ∧
    (api_predict (some negModel) true scenarioPayload).1.status = 200 ∧
    (api_predict (some negModel) true scenarioPayload).1.predicted_fare =
      some (mkRat (-5) 1) ∧
    mkRat (-5) 1 < 0 := by
  have hav : (validate_input_data apiVariant scenarioPayload).1 = true := by decide
  have hprep : prepare_input_dataframe scenarioPayload = some [mkRat 11 2, 5, 2, 1, 1] := by
    decide
  refine ⟨hav, ?_, ?_, by decide⟩
  · rw [api_predict_valid negModel hav hprep]
  · rw [api_predict_valid negModel hav hprep]
    show some (round2 (negModel [mkRat 11 2, 5, 2, 1, 1])) = some (mkRat (-5) 1)
    rw [show negModel [mkRat 11 2, 5, 2, 1, 1] = mkRat (-5) 1 from rfl, round2_neg5]
